import Mathlib

/-!
Shallow embedding of the Curve Reactor simulation core
(`src/bezier-curve.js`, class `CurveeReactor`).

Numbers are modelled by `ℚ`: every constant appearing in the source
(0.15, 0.05, 0.90, −0.3, 0.01, …) is an exact decimal, so the algebra of
the source translates verbatim.  Device-pixel-ratio handling cancels in
every computation the core performs (`mouse.x` is multiplied by `dpi` on
input and divided by `dpi` at every use; canvas dimensions likewise), so
all coordinates here are in logical (CSS-pixel) units, i.e. `dpi = 1`.
-/

/-- A 2-D point or vector `{x, y}` in canvas-space coordinates. -/
@[ext] structure Point where
  x : ℚ
  y : ℚ
deriving DecidableEq, Repr

/-- The four control points `controlPoints[0..3]` (also used for
`initialPoints`, the rest pose). -/
@[ext] structure CtrlPts where
  p0 : Point
  p1 : Point
  p2 : Point
  p3 : Point
deriving DecidableEq, Repr

/-- Embeds `calculateBezierPoint(t)`: the cubic Bézier blend of the four
control points, computed exactly as the source writes it. -/
def calculateBezierPoint (cps : CtrlPts) (t : ℚ) : Point :=
  let u := 1 - t
  let tt := t * t
  let uu := u * u
  let uuu := uu * u
  let ttt := tt * t
  { x := uuu * cps.p0.x + 3 * uu * t * cps.p1.x + 3 * u * tt * cps.p2.x + ttt * cps.p3.x
    y := uuu * cps.p0.y + 3 * uu * t * cps.p1.y + 3 * u * tt * cps.p2.y + ttt * cps.p3.y }

/-- Embeds `calculateBezierTangent(t)`: the derivative formula
`3(1−t)²(P1−P0) + 6(1−t)t(P2−P1) + 3t²(P3−P2)` componentwise. -/
def calculateBezierTangent (cps : CtrlPts) (t : ℚ) : Point :=
  let u := 1 - t
  { x := 3 * u * u * (cps.p1.x - cps.p0.x) + 6 * u * t * (cps.p2.x - cps.p1.x)
          + 3 * t * t * (cps.p3.x - cps.p2.x)
    y := 3 * u * u * (cps.p1.y - cps.p0.y) + 6 * u * t * (cps.p2.y - cps.p1.y)
          + 3 * t * t * (cps.p3.y - cps.p2.y) }

/-- C1: For any four control points, evaluating the curve at the parameter
endpoints returns the endpoints exactly: `calculateBezierPoint 0 = P0` and
`calculateBezierPoint 1 = P3`, componentwise. -/
theorem calculateBezierPoint_endpoints (cps : CtrlPts) :
    calculateBezierPoint cps 0 = cps.p0 ∧ calculateBezierPoint cps 1 = cps.p3 := by
  constructor <;> (ext <;> simp [calculateBezierPoint])

/-- The x-coordinate of the Bézier blend as a polynomial in the parameter,
with the same Bernstein-form terms the source code sums. -/
noncomputable def bezierPolyX (cps : CtrlPts) : Polynomial ℚ :=
  Polynomial.C cps.p0.x * (1 - Polynomial.X) ^ 3
    + Polynomial.C (3 * cps.p1.x) * (1 - Polynomial.X) ^ 2 * Polynomial.X
    + Polynomial.C (3 * cps.p2.x) * (1 - Polynomial.X) * Polynomial.X ^ 2
    + Polynomial.C cps.p3.x * Polynomial.X ^ 3

/-- The y-coordinate of the Bézier blend as a polynomial in the parameter. -/
noncomputable def bezierPolyY (cps : CtrlPts) : Polynomial ℚ :=
  Polynomial.C cps.p0.y * (1 - Polynomial.X) ^ 3
    + Polynomial.C (3 * cps.p1.y) * (1 - Polynomial.X) ^ 2 * Polynomial.X
    + Polynomial.C (3 * cps.p2.y) * (1 - Polynomial.X) * Polynomial.X ^ 2
    + Polynomial.C cps.p3.y * Polynomial.X ^ 3

lemma bezierPolyX_eval (cps : CtrlPts) (t : ℚ) :
    (bezierPolyX cps).eval t = (calculateBezierPoint cps t).x := by
  simp [bezierPolyX, calculateBezierPoint]
  ring

lemma bezierPolyY_eval (cps : CtrlPts) (t : ℚ) :
    (bezierPolyY cps).eval t = (calculateBezierPoint cps t).y := by
  simp [bezierPolyY, calculateBezierPoint]
  ring

/-- C7: `calculateBezierTangent` evaluates, at every parameter `t`, the
componentwise derivative of the cubic polynomial that
`calculateBezierPoint` computes; and when all adjacent control points
coincide the tangent is the zero vector (returned, not a failure). -/
theorem calculateBezierTangent_is_derivative (cps : CtrlPts) (t : ℚ) :
    (calculateBezierTangent cps t).x = (Polynomial.derivative (bezierPolyX cps)).eval t
    ∧ (calculateBezierTangent cps t).y = (Polynomial.derivative (bezierPolyY cps)).eval t
    ∧ (cps.p0 = cps.p1 → cps.p1 = cps.p2 → cps.p2 = cps.p3 →
        calculateBezierTangent cps t = { x := 0, y := 0 }) := by
  refine ⟨?_, ?_, ?_⟩
  · simp only [bezierPolyX, map_add, Polynomial.derivative_mul, Polynomial.derivative_C,
      Polynomial.derivative_pow, Polynomial.derivative_sub, Polynomial.derivative_one,
      Polynomial.derivative_X, Polynomial.eval_add, Polynomial.eval_mul, Polynomial.eval_pow,
      Polynomial.eval_sub, Polynomial.eval_one, Polynomial.eval_C, Polynomial.eval_X,
      Polynomial.eval_natCast, Polynomial.eval_zero, Polynomial.eval_ofNat,
      calculateBezierTangent]
    push_cast
    ring
  · simp only [bezierPolyY, map_add, Polynomial.derivative_mul, Polynomial.derivative_C,
      Polynomial.derivative_pow, Polynomial.derivative_sub, Polynomial.derivative_one,
      Polynomial.derivative_X, Polynomial.eval_add, Polynomial.eval_mul, Polynomial.eval_pow,
      Polynomial.eval_sub, Polynomial.eval_one, Polynomial.eval_C, Polynomial.eval_X,
      Polynomial.eval_natCast, Polynomial.eval_zero, Polynomial.eval_ofNat,
      calculateBezierTangent]
    push_cast
    ring
  · intro h01 h12 h23
    ext <;> simp [calculateBezierTangent, h01, h12, h23]

/-- Witness for C7: a concrete degenerate configuration where all four
control points coincide, at parameter 1/2. -/
theorem calculateBezierTangent_is_derivative_witness :
    calculateBezierTangent ⟨⟨5, 7⟩, ⟨5, 7⟩, ⟨5, 7⟩, ⟨5, 7⟩⟩ (1/2) = { x := 0, y := 0 } := by
  exact (calculateBezierTangent_is_derivative ⟨⟨5, 7⟩, ⟨5, 7⟩, ⟨5, 7⟩, ⟨5, 7⟩⟩ (1/2)).2.2
    rfl rfl rfl

/-- One axis of `applyBoundaries`: the two sequential `if` statements of the
source for a single coordinate (`margin = 30`), each clamping the position
and scaling the velocity by `-0.3`.  The second test reads the position as
already updated by the first, exactly as the in-place mutation does. -/
def clampAxis (dim x v : ℚ) : ℚ × ℚ :=
  let margin : ℚ := 30
  let x1 := if x < margin then margin else x
  let v1 := if x < margin then v * (-0.3) else v
  let x2 := if x1 > dim - margin then dim - margin else x1
  let v2 := if x1 > dim - margin then v1 * (-0.3) else v1
  (x2, v2)

/-- Embeds `applyBoundaries(point, velocity)`.  The source's four `if`
statements touch the x-components and the y-components on disjoint state,
so they are the x-axis clamp and the y-axis clamp run side by side.
Returns the updated `(point, velocity)` pair. -/
def applyBoundaries (width height : ℚ) (point velocity : Point) : Point × Point :=
  let rx := clampAxis width point.x velocity.x
  let ry := clampAxis height point.y velocity.y
  ({ x := rx.1, y := ry.1 }, { x := rx.2, y := ry.2 })

lemma clampAxis_low (dim x v : ℚ) (hdim : 60 ≤ dim) (h : x < 30) :
    clampAxis dim x v = (30, v * (-0.3)) := by
  simp only [clampAxis]
  split_ifs <;> first | rfl | (exfalso; linarith)

lemma clampAxis_high (dim x v : ℚ) (hdim : 60 ≤ dim) (h : x > dim - 30) :
    clampAxis dim x v = (dim - 30, v * (-0.3)) := by
  simp only [clampAxis]
  split_ifs <;> first | rfl | (exfalso; linarith)

lemma clampAxis_inside (dim x v : ℚ) (h1 : 30 ≤ x) (h2 : x ≤ dim - 30) :
    clampAxis dim x v = (x, v) := by
  simp only [clampAxis]
  split_ifs <;> first | rfl | (exfalso; linarith)

lemma clampAxis_bounds (dim x v : ℚ) (hdim : 60 ≤ dim) :
    30 ≤ (clampAxis dim x v).1 ∧ (clampAxis dim x v).1 ≤ dim - 30 := by
  rcases lt_or_ge x 30 with h | h1
  · rw [clampAxis_low dim x v hdim h]
    exact ⟨le_rfl, show (30 : ℚ) ≤ dim - 30 by linarith⟩
  · rcases le_or_lt x (dim - 30) with h2 | h2
    · rw [clampAxis_inside dim x v h1 h2]
      exact ⟨h1, h2⟩
    · rw [clampAxis_high dim x v hdim h2]
      exact ⟨show (30 : ℚ) ≤ dim - 30 by linarith, le_rfl⟩

/-- C4: with `width, height ≥ 60`, the clamp keeps every point inside
`[30, width − 30] × [30, height − 30]`; an axis that was below 30 is set to
30 with its velocity component scaled by −0.3; an axis above
`dimension − 30` is set to that bound with the same scaling; an axis inside
the bounds keeps both its position and its velocity component. -/
theorem applyBoundaries_clamps (width height : ℚ) (point velocity : Point)
    (hw : 60 ≤ width) (hh : 60 ≤ height) :
    (30 ≤ (applyBoundaries width height point velocity).1.x
      ∧ (applyBoundaries width height point velocity).1.x ≤ width - 30
      ∧ 30 ≤ (applyBoundaries width height point velocity).1.y
      ∧ (applyBoundaries width height point velocity).1.y ≤ height - 30)
    ∧ (point.x < 30 →
        (applyBoundaries width height point velocity).1.x = 30
        ∧ (applyBoundaries width height point velocity).2.x = velocity.x * (-0.3))
    ∧ (point.x > width - 30 →
        (applyBoundaries width height point velocity).1.x = width - 30
        ∧ (applyBoundaries width height point velocity).2.x = velocity.x * (-0.3))
    ∧ (30 ≤ point.x → point.x ≤ width - 30 →
        (applyBoundaries width height point velocity).1.x = point.x
        ∧ (applyBoundaries width height point velocity).2.x = velocity.x)
    ∧ (point.y < 30 →
        (applyBoundaries width height point velocity).1.y = 30
        ∧ (applyBoundaries width height point velocity).2.y = velocity.y * (-0.3))
    ∧ (point.y > height - 30 →
        (applyBoundaries width height point velocity).1.y = height - 30
        ∧ (applyBoundaries width height point velocity).2.y = velocity.y * (-0.3))
    ∧ (30 ≤ point.y → point.y ≤ height - 30 →
        (applyBoundaries width height point velocity).1.y = point.y
        ∧ (applyBoundaries width height point velocity).2.y = velocity.y) := by
  simp only [applyBoundaries]
  refine ⟨⟨(clampAxis_bounds width point.x velocity.x hw).1,
      (clampAxis_bounds width point.x velocity.x hw).2,
      (clampAxis_bounds height point.y velocity.y hh).1,
      (clampAxis_bounds height point.y velocity.y hh).2⟩,
    ?_, ?_, ?_, ?_, ?_, ?_⟩
  · intro h
    rw [clampAxis_low width point.x velocity.x hw h]
    exact ⟨rfl, rfl⟩
  · intro h
    rw [clampAxis_high width point.x velocity.x hw h]
    exact ⟨rfl, rfl⟩
  · intro h1 h2
    rw [clampAxis_inside width point.x velocity.x h1 h2]
    exact ⟨rfl, rfl⟩
  · intro h
    rw [clampAxis_low height point.y velocity.y hh h]
    exact ⟨rfl, rfl⟩
  · intro h
    rw [clampAxis_high height point.y velocity.y hh h]
    exact ⟨rfl, rfl⟩
  · intro h1 h2
    rw [clampAxis_inside height point.y velocity.y h1 h2]
    exact ⟨rfl, rfl⟩

/-- Witness for C4 at a concrete out-of-bounds point on a 200 × 100 surface. -/
theorem applyBoundaries_clamps_witness :
    (60 : ℚ) ≤ 200 ∧ (60 : ℚ) ≤ 100
    ∧ (applyBoundaries 200 100 ⟨10, 95⟩ ⟨-2, 4⟩).1.x = 30
    ∧ (applyBoundaries 200 100 ⟨10, 95⟩ ⟨-2, 4⟩).2.x = (-2) * (-0.3)
    ∧ (applyBoundaries 200 100 ⟨10, 95⟩ ⟨-2, 4⟩).1.y = 100 - 30
    ∧ (applyBoundaries 200 100 ⟨10, 95⟩ ⟨-2, 4⟩).2.y = 4 * (-0.3) := by
  have h := applyBoundaries_clamps 200 100 ⟨10, 95⟩ ⟨-2, 4⟩ (by norm_num) (by norm_num)
  exact ⟨by norm_num, by norm_num,
    (h.2.1 (by norm_num)).1, (h.2.1 (by norm_num)).2,
    (h.2.2.2.2.2.1 (by norm_num)).1, (h.2.2.2.2.2.1 (by norm_num)).2⟩

lemma clampAxis_pos_idem (dim x v : ℚ) :
    (clampAxis dim (clampAxis dim x v).1 (clampAxis dim x v).2).1 =
      (clampAxis dim x v).1 := by
  simp only [clampAxis]
  split_ifs <;> rfl

/-- C6: the boundary clamp is idempotent on position — for every point,
velocity and surface dimensions, clamping the clamped output again leaves
the position unchanged. -/
theorem applyBoundaries_pos_idempotent (width height : ℚ) (point velocity : Point) :
    (applyBoundaries width height (applyBoundaries width height point velocity).1
        (applyBoundaries width height point velocity).2).1 =
      (applyBoundaries width height point velocity).1 := by
  simp only [applyBoundaries]
  ext
  · exact clampAxis_pos_idem width point.x velocity.x
  · exact clampAxis_pos_idem height point.y velocity.y

/-- A particle of the decorative particle system
(`this.particles.list` entries). -/
structure Particle where
  x : ℚ
  y : ℚ
  vx : ℚ
  vy : ℚ
  life : ℚ
  decay : ℚ
  size : ℚ
  color : String
  rotation : ℚ
deriving DecidableEq, Repr

/-- The fixed particle palette `this.particles.colors`. -/
def particleColors : List String := ["#06b6d4", "#8b5cf6", "#3b82f6", "#10b981"]

/-- The random draws one iteration of the `createParticles` loop consumes.
`angleCos`/`angleSin` are the values of `Math.cos`/`Math.sin` at the random
angle, and `rot` is the value of `Math.random() * Math.PI * 2` used for the
initial rotation; the remaining fields are the raw `Math.random()` draws in
`[0, 1)` for speed, life, decay, size and colour index. -/
structure RandDraw where
  angleCos : ℚ
  angleSin : ℚ
  rot : ℚ
  speedR : ℚ
  lifeR : ℚ
  decayR : ℚ
  sizeR : ℚ
  colorR : ℚ
deriving DecidableEq, Repr

/-- The particle one iteration of the `createParticles` loop pushes:
`speed = random*3 + 1`, `life = 0.5 + random*0.5`, velocity is the random
direction scaled by the speed, `decay = 0.01 + random*0.02`,
`size = 2 + random*4`, colour indexed by `floor(random * colors.length)`. -/
def mkParticle (x y : ℚ) (r : RandDraw) : Particle :=
  let speed := r.speedR * 3 + 1
  let life := 0.5 + r.lifeR * 0.5
  { x := x
    y := y
    vx := r.angleCos * speed
    vy := r.angleSin * speed
    life := life
    decay := 0.01 + r.decayR * 0.02
    size := 2 + r.sizeR * 4
    color := particleColors.getD (Int.toNat (Int.floor (r.colorR * (particleColors.length : ℚ)))) ""
    rotation := r.rot }

/-- Embeds `createParticles(x, y, count)`: bails out when particles are
disabled, otherwise pushes `count` fresh particles, the `i`-th built from
the `i`-th block of random draws. -/
def createParticles (enabled : Bool) (x y : ℚ) (count : ℕ) (rand : ℕ → RandDraw)
    (list : List Particle) : List Particle :=
  if enabled = false then list
  else list ++ (List.range count).map (fun i => mkParticle x y (rand i))

/-- One tick of a single particle inside `updateParticles`: position moves
by the old velocity, then gravity `0.1` is added to `vy`, both velocity
components are scaled by `0.98`, life drops by `decay`, rotation advances
by `0.05`. -/
def updateParticle (p : Particle) : Particle :=
  { p with
    x := p.x + p.vx
    y := p.y + p.vy
    vx := p.vx * 0.98
    vy := (p.vy + 0.1) * 0.98
    life := p.life - p.decay
    rotation := p.rotation + 0.05 }

/-- Embeds `updateParticles()`: the source's backwards index loop advances
every particle in place and splices out exactly those whose updated life is
`≤ 0`, keeping the survivors in order — i.e. a map followed by a filter. -/
def updateParticles (l : List Particle) : List Particle :=
  (l.map updateParticle).filter fun p => !decide (p.life ≤ 0)

/-- C8: each advance subtracts exactly `decay` from `life` (strictly
decreasing when `decay > 0`); every particle still in the collection after
`updateParticles` has `life > 0`; and a particle of the collection survives
the tick if and only if its decremented life is still positive. -/
theorem updateParticles_life_removal (l : List Particle) :
    (∀ p : Particle, (updateParticle p).life = p.life - p.decay
      ∧ (0 < p.decay → (updateParticle p).life < p.life))
    ∧ (∀ p ∈ updateParticles l, 0 < p.life)
    ∧ (∀ p ∈ l, (0 < (updateParticle p).life ↔ updateParticle p ∈ updateParticles l)) := by
  refine ⟨fun p => ⟨rfl, fun h => ?_⟩, fun p hp => ?_, fun p hp => ⟨fun h => ?_, fun h => ?_⟩⟩
  · simp only [updateParticle]
    linarith
  · simp only [updateParticles, List.mem_filter, Bool.not_eq_true', decide_eq_false_iff_not,
      not_le] at hp
    exact hp.2
  · simp only [updateParticles, List.mem_filter, Bool.not_eq_true', decide_eq_false_iff_not,
      not_le]
    exact ⟨List.mem_map_of_mem updateParticle hp, h⟩
  · simp only [updateParticles, List.mem_filter, Bool.not_eq_true', decide_eq_false_iff_not,
      not_le] at h
    exact h.2

/-- Witness for C8: a two-particle collection in which the first particle
survives the tick and the second is removed exactly when its life drops
to `≤ 0`. -/
theorem updateParticles_life_removal_witness :
    (updateParticle ⟨0, 0, 1, 1, 0.5, 0.01, 3, "#06b6d4", 0⟩).life = 0.5 - 0.01
    ∧ (updateParticle ⟨0, 0, 1, 1, 0.5, 0.01, 3, "#06b6d4", 0⟩).life < 0.5
    ∧ (0 < (updateParticle ⟨0, 0, 1, 1, 0.5, 0.01, 3, "#06b6d4", 0⟩).life ↔
        updateParticle ⟨0, 0, 1, 1, 0.5, 0.01, 3, "#06b6d4", 0⟩ ∈
          updateParticles [⟨0, 0, 1, 1, 0.5, 0.01, 3, "#06b6d4", 0⟩,
            ⟨9, 9, 0, 0, 0.01, 0.02, 3, "#8b5cf6", 0⟩])
    ∧ ¬ (0 < (updateParticle ⟨9, 9, 0, 0, 0.01, 0.02, 3, "#8b5cf6", 0⟩).life) := by
  have h := updateParticles_life_removal [⟨0, 0, 1, 1, 0.5, 0.01, 3, "#06b6d4", 0⟩,
    ⟨9, 9, 0, 0, 0.01, 0.02, 3, "#8b5cf6", 0⟩]
  refine ⟨(h.1 ⟨0, 0, 1, 1, 0.5, 0.01, 3, "#06b6d4", 0⟩).1, ?_, ?_,
    by norm_num [updateParticle]⟩
  · have := (h.1 ⟨0, 0, 1, 1, 0.5, 0.01, 3, "#06b6d4", 0⟩).2 (by norm_num)
    exact this
  · exact h.2.2 ⟨0, 0, 1, 1, 0.5, 0.01, 3, "#06b6d4", 0⟩ (by simp)

/-- A raw `Math.random()` draw: a number in `[0, 1)`. -/
def inUnit (q : ℚ) : Prop := 0 ≤ q ∧ q < 1

lemma mkParticle_color_mem (x y : ℚ) (r : RandDraw)
    (h0 : 0 ≤ r.colorR) (h1 : r.colorR < 1) :
    (mkParticle x y r).color ∈ particleColors := by
  have hlen : ((particleColors.length : ℚ)) = 4 := by norm_num [particleColors]
  have hnn : (0 : ℚ) ≤ r.colorR * (particleColors.length : ℚ) := by
    rw [hlen]; nlinarith
  have hlt : Int.floor (r.colorR * (particleColors.length : ℚ)) < 4 := by
    refine Int.floor_lt.mpr ?_
    rw [hlen]; push_cast; nlinarith
  have hge : 0 ≤ Int.floor (r.colorR * (particleColors.length : ℚ)) :=
    Int.floor_nonneg.mpr hnn
  have hn : Int.toNat (Int.floor (r.colorR * (particleColors.length : ℚ))) < 4 := by omega
  show particleColors.getD
      (Int.toNat (Int.floor (r.colorR * (particleColors.length : ℚ)))) "" ∈ particleColors
  set n := Int.toNat (Int.floor (r.colorR * (particleColors.length : ℚ))) with hdef
  clear_value n
  interval_cases n <;> decide

/-- C9: spawning `count` particles (with the subsystem enabled) appends
exactly `count` new particles, leaves the existing ones unchanged as a
prefix, and every freshly built particle sits at the origin, has its
velocity pointing along the drawn direction with speed `random*3+1 ∈ [1,4)`,
life in `[0.5, 1)`, decay in `[0.01, 0.03)`, size in `[2, 6)`, and a colour
from the fixed palette of four. -/
theorem createParticles_spawn_contract (x y : ℚ) (count : ℕ) (rand : ℕ → RandDraw)
    (old : List Particle)
    (hr : ∀ i, i < count → inUnit (rand i).speedR ∧ inUnit (rand i).lifeR
      ∧ inUnit (rand i).decayR ∧ inUnit (rand i).sizeR ∧ inUnit (rand i).colorR) :
    (createParticles true x y count rand old).length = old.length + count
    ∧ (createParticles true x y count rand old).take old.length = old
    ∧ (createParticles true x y count rand old).drop old.length =
        (List.range count).map (fun i => mkParticle x y (rand i))
    ∧ ∀ i, i < count →
        (mkParticle x y (rand i)).x = x
        ∧ (mkParticle x y (rand i)).y = y
        ∧ 1 ≤ (rand i).speedR * 3 + 1 ∧ (rand i).speedR * 3 + 1 < 4
        ∧ (mkParticle x y (rand i)).vx = (rand i).angleCos * ((rand i).speedR * 3 + 1)
        ∧ (mkParticle x y (rand i)).vy = (rand i).angleSin * ((rand i).speedR * 3 + 1)
        ∧ 0.5 ≤ (mkParticle x y (rand i)).life ∧ (mkParticle x y (rand i)).life < 1
        ∧ 0.01 ≤ (mkParticle x y (rand i)).decay ∧ (mkParticle x y (rand i)).decay < 0.03
        ∧ 2 ≤ (mkParticle x y (rand i)).size ∧ (mkParticle x y (rand i)).size < 6
        ∧ (mkParticle x y (rand i)).color ∈ particleColors := by
  refine ⟨?_, ?_, ?_, fun i hi => ?_⟩
  · simp [createParticles]
  · simp only [createParticles, if_neg (by simp : ¬ (true = false))]
    exact List.take_left old _
  · simp only [createParticles, if_neg (by simp : ¬ (true = false))]
    exact List.drop_left old _
  · obtain ⟨hs, hl, hd, hz, hc⟩ := hr i hi
    refine ⟨rfl, rfl, by linarith [hs.1], by linarith [hs.2], rfl, rfl,
      ?_, ?_, ?_, ?_, ?_, ?_, mkParticle_color_mem x y (rand i) hc.1 hc.2⟩
    · show (0.5 : ℚ) ≤ 0.5 + (rand i).lifeR * 0.5
      linarith [hl.1]
    · show (0.5 : ℚ) + (rand i).lifeR * 0.5 < 1
      linarith [hl.2]
    · show (0.01 : ℚ) ≤ 0.01 + (rand i).decayR * 0.02
      linarith [hd.1]
    · show (0.01 : ℚ) + (rand i).decayR * 0.02 < 0.03
      linarith [hd.2]
    · show (2 : ℚ) ≤ 2 + (rand i).sizeR * 4
      linarith [hz.1]
    · show (2 : ℚ) + (rand i).sizeR * 4 < 6
      linarith [hz.2]

/-- Witness for C9: two particles spawned at (40, 50) with explicit draws,
on top of one pre-existing particle. -/
theorem createParticles_spawn_contract_witness :
    (createParticles true 40 50 2 (fun _ => ⟨1, 0, 0, 1/2, 1/2, 1/2, 1/2, 1/2⟩)
        [⟨9, 9, 0, 0, 1, 0.02, 3, "#8b5cf6", 0⟩]).length = 1 + 2
    ∧ (createParticles true 40 50 2 (fun _ => ⟨1, 0, 0, 1/2, 1/2, 1/2, 1/2, 1/2⟩)
        [⟨9, 9, 0, 0, 1, 0.02, 3, "#8b5cf6", 0⟩]).take 1 =
        [⟨9, 9, 0, 0, 1, 0.02, 3, "#8b5cf6", 0⟩]
    ∧ (mkParticle 40 50 ⟨1, 0, 0, 1/2, 1/2, 1/2, 1/2, 1/2⟩).x = 40
    ∧ (mkParticle 40 50 ⟨1, 0, 0, 1/2, 1/2, 1/2, 1/2, 1/2⟩).color ∈ particleColors := by
  have h := createParticles_spawn_contract 40 50 2 (fun _ => ⟨1, 0, 0, 1/2, 1/2, 1/2, 1/2, 1/2⟩)
    [⟨9, 9, 0, 0, 1, 0.02, 3, "#8b5cf6", 0⟩]
    (fun i _ => by exact ⟨⟨by norm_num, by norm_num⟩, ⟨by norm_num, by norm_num⟩,
      ⟨by norm_num, by norm_num⟩, ⟨by norm_num, by norm_num⟩, ⟨by norm_num, by norm_num⟩⟩)
  exact ⟨h.1, h.2.1, (h.2.2.2 0 (by norm_num)).1,
    (h.2.2.2 0 (by norm_num)).2.2.2.2.2.2.2.2.2.2.2.2⟩

/-- Pointer state (`this.mouse`): current and previous position, derived
velocity, engaged flag, and the control point currently under manual
control.  In the source `targetPoint` is a reference to `controlPoints[1]`
or `controlPoints[2]` (or `null`); here the reference is modelled by the
index of the referenced point. -/
structure Mouse where
  x : ℚ
  y : ℚ
  px : ℚ
  py : ℚ
  vx : ℚ
  vy : ℚ
  isDown : Bool
  targetPoint : Option (Fin 4)
deriving DecidableEq, Repr

/-- Physics parameters (`this.physics` without the velocities array). -/
structure PhysicsParams where
  enabled : Bool
  stiffness : ℚ
  damping : ℚ
  mouseInfluence : ℚ
deriving DecidableEq, Repr

/-- The simulation state after initialization: canvas dimensions, rest pose
(`initialPoints`), current control points, physics parameters, the two
velocities `physics.velocities[0..1]` of the movable points P1 and P2,
pointer state, and the particle subsystem (`particles.enabled`,
`particles.list`). -/
structure State where
  width : ℚ
  height : ℚ
  initialPoints : CtrlPts
  controlPoints : CtrlPts
  physics : PhysicsParams
  vel0 : Point
  vel1 : Point
  mouse : Mouse
  particlesEnabled : Bool
  particles : List Particle
deriving DecidableEq, Repr

/-- Embeds `getNearestControlPoint(x, y, threshold)`: only P1 and P2 are
examined, in that order; the source's `sqrt(dx² + dy²) < threshold` is
expressed without the square root as `dx² + dy² < threshold²`, which is
equivalent for the positive threshold used.  Returns the index of the
selected point. -/
def getNearestControlPoint (cps : CtrlPts) (x y threshold : ℚ) : Option (Fin 4) :=
  if (cps.p1.x - x) ^ 2 + (cps.p1.y - y) ^ 2 < threshold ^ 2 then some 1
  else if (cps.p2.x - x) ^ 2 + (cps.p2.y - y) ^ 2 < threshold ^ 2 then some 2
  else none

/-- The rest pose `initialPoints` computed by `calculateInitialPoints` from
the surface dimensions: fractions 0.15/0.35/0.65/0.85 of the width and
0.6/0.2/0.2/0.6 of the height. -/
def restPose (width height : ℚ) : CtrlPts :=
  { p0 := { x := width * 0.15, y := height * 0.6 }
    p1 := { x := width * 0.35, y := height * 0.2 }
    p2 := { x := width * 0.65, y := height * 0.2 }
    p3 := { x := width * 0.85, y := height * 0.6 } }

/-- Embeds `calculateInitialPoints()` on the pair
`(initialPoints, controlPoints)`: the rest pose is always recomputed, but
`controlPoints` is copied from it only under `if (!this.controlPoints)`,
i.e. only when no control points exist yet (first initialization). -/
def calculateInitialPoints (width height : ℚ) (controlPoints : Option CtrlPts) :
    CtrlPts × CtrlPts :=
  let ip := restPose width height
  (ip, match controlPoints with
    | none => ip
    | some c => c)

/-- Embeds `resizeCanvas()` on a post-initialization state (the control
points exist): the canvas takes the container's width and the fixed height
600, and `calculateInitialPoints` runs only under `if (!this.mouse?.isDown)`. -/
def resizeCanvas (containerWidth : ℚ) (s : State) : State :=
  let s1 : State := { s with width := containerWidth, height := 600 }
  if s1.mouse.isDown then s1
  else
    let r := calculateInitialPoints s1.width s1.height (some s1.controlPoints)
    { s1 with initialPoints := r.1, controlPoints := r.2 }

/-- The `i = 1` iteration of the `updatePhysics` loop, acting on P1 and
`velocities[0]`.  If P1 is the manual-control target, its velocity is
zeroed and the iteration ends (`continue`); otherwise the target position
is the rest pose offset by the pointer-influence term (positive x-sign for
P1) and the pointer-velocity term, spring force and damping update the
velocity, the position integrates it, boundaries are applied, and a
one-particle burst is spawned when the resulting speed is large enough. -/
def integrateP1 (r : RandDraw) (s : State) : State :=
  if s.mouse.targetPoint = some 1 then
    { s with vel0 := { x := 0, y := 0 } }
  else
    let influence := s.physics.mouseInfluence * 0.01
    let targetX := s.initialPoints.p1.x + (s.mouse.x - s.width / 2) * influence
      + s.mouse.vx * 0.5
    let targetY := s.initialPoints.p1.y + (s.mouse.y - s.height / 2) * influence
      + s.mouse.vy * 0.5
    let springForceX := -s.physics.stiffness * (s.controlPoints.p1.x - targetX)
    let springForceY := -s.physics.stiffness * (s.controlPoints.p1.y - targetY)
    let v : Point := { x := s.vel0.x * s.physics.damping + springForceX,
                       y := s.vel0.y * s.physics.damping + springForceY }
    let p : Point := { x := s.controlPoints.p1.x + v.x, y := s.controlPoints.p1.y + v.y }
    let pv := applyBoundaries s.width s.height p v
    let parts := if s.particlesEnabled = true ∧ 0.5 < abs pv.2.x + abs pv.2.y then
        createParticles s.particlesEnabled pv.1.x pv.1.y 1 (fun _ => r) s.particles
      else s.particles
    { s with
      controlPoints := { s.controlPoints with p1 := pv.1 }
      vel0 := pv.2
      particles := parts }

/-- The `i = 2` iteration of the `updatePhysics` loop, acting on P2 and
`velocities[1]`; identical to the P1 iteration except that the horizontal
pointer-influence term is subtracted (mirrored). -/
def integrateP2 (r : RandDraw) (s : State) : State :=
  if s.mouse.targetPoint = some 2 then
    { s with vel1 := { x := 0, y := 0 } }
  else
    let influence := s.physics.mouseInfluence * 0.01
    let targetX := s.initialPoints.p2.x - (s.mouse.x - s.width / 2) * influence
      + s.mouse.vx * 0.5
    let targetY := s.initialPoints.p2.y + (s.mouse.y - s.height / 2) * influence
      + s.mouse.vy * 0.5
    let springForceX := -s.physics.stiffness * (s.controlPoints.p2.x - targetX)
    let springForceY := -s.physics.stiffness * (s.controlPoints.p2.y - targetY)
    let v : Point := { x := s.vel1.x * s.physics.damping + springForceX,
                       y := s.vel1.y * s.physics.damping + springForceY }
    let p : Point := { x := s.controlPoints.p2.x + v.x, y := s.controlPoints.p2.y + v.y }
    let pv := applyBoundaries s.width s.height p v
    let parts := if s.particlesEnabled = true ∧ 0.5 < abs pv.2.x + abs pv.2.y then
        createParticles s.particlesEnabled pv.1.x pv.1.y 1 (fun _ => r) s.particles
      else s.particles
    { s with
      controlPoints := { s.controlPoints with p2 := pv.1 }
      vel1 := pv.2
      particles := parts }

/-- Embeds one call of `updatePhysics()`: nothing happens when physics is
disabled; otherwise the two loop iterations run in order and then the
existing particles are advanced.  `r1`, `r2` are the random draws the two
potential one-particle bursts would consume. -/
def updatePhysics (r1 r2 : RandDraw) (s : State) : State :=
  if s.physics.enabled = true then
    let s2 := integrateP2 r2 (integrateP1 r1 s)
    { s2 with particles := updateParticles s2.particles }
  else s

/-- `n` consecutive physics ticks, the tick for step `k` consuming the
random draws `f k`. -/
def iteratePhysics (f : ℕ → RandDraw × RandDraw) : ℕ → State → State
  | 0, s => s
  | n + 1, s => updatePhysics (f n).1 (f n).2 (iteratePhysics f n s)

lemma integrateP1_frame (r : RandDraw) (s : State) :
    (integrateP1 r s).width = s.width ∧ (integrateP1 r s).height = s.height
    ∧ (integrateP1 r s).initialPoints = s.initialPoints
    ∧ (integrateP1 r s).physics = s.physics
    ∧ (integrateP1 r s).mouse = s.mouse
    ∧ (integrateP1 r s).particlesEnabled = s.particlesEnabled
    ∧ (integrateP1 r s).controlPoints.p0 = s.controlPoints.p0
    ∧ (integrateP1 r s).controlPoints.p2 = s.controlPoints.p2
    ∧ (integrateP1 r s).controlPoints.p3 = s.controlPoints.p3
    ∧ (integrateP1 r s).vel1 = s.vel1 := by
  unfold integrateP1
  split
  · exact ⟨rfl, rfl, rfl, rfl, rfl, rfl, rfl, rfl, rfl, rfl⟩
  · exact ⟨rfl, rfl, rfl, rfl, rfl, rfl, rfl, rfl, rfl, rfl⟩

lemma integrateP2_frame (r : RandDraw) (s : State) :
    (integrateP2 r s).width = s.width ∧ (integrateP2 r s).height = s.height
    ∧ (integrateP2 r s).initialPoints = s.initialPoints
    ∧ (integrateP2 r s).physics = s.physics
    ∧ (integrateP2 r s).mouse = s.mouse
    ∧ (integrateP2 r s).particlesEnabled = s.particlesEnabled
    ∧ (integrateP2 r s).controlPoints.p0 = s.controlPoints.p0
    ∧ (integrateP2 r s).controlPoints.p1 = s.controlPoints.p1
    ∧ (integrateP2 r s).controlPoints.p3 = s.controlPoints.p3
    ∧ (integrateP2 r s).vel0 = s.vel0 := by
  unfold integrateP2
  split
  · exact ⟨rfl, rfl, rfl, rfl, rfl, rfl, rfl, rfl, rfl, rfl⟩
  · exact ⟨rfl, rfl, rfl, rfl, rfl, rfl, rfl, rfl, rfl, rfl⟩

lemma updatePhysics_frame (r1 r2 : RandDraw) (s : State) :
    (updatePhysics r1 r2 s).width = s.width ∧ (updatePhysics r1 r2 s).height = s.height
    ∧ (updatePhysics r1 r2 s).initialPoints = s.initialPoints
    ∧ (updatePhysics r1 r2 s).physics = s.physics
    ∧ (updatePhysics r1 r2 s).mouse = s.mouse
    ∧ (updatePhysics r1 r2 s).particlesEnabled = s.particlesEnabled
    ∧ (updatePhysics r1 r2 s).controlPoints.p0 = s.controlPoints.p0
    ∧ (updatePhysics r1 r2 s).controlPoints.p3 = s.controlPoints.p3 := by
  unfold updatePhysics
  split
  · have h1 := integrateP1_frame r1 s
    have h2 := integrateP2_frame r2 (integrateP1 r1 s)
    exact ⟨h2.1.trans h1.1, h2.2.1.trans h1.2.1,
      h2.2.2.1.trans h1.2.2.1, h2.2.2.2.1.trans h1.2.2.2.1,
      h2.2.2.2.2.1.trans h1.2.2.2.2.1, h2.2.2.2.2.2.1.trans h1.2.2.2.2.2.1,
      h2.2.2.2.2.2.2.1.trans h1.2.2.2.2.2.2.1,
      h2.2.2.2.2.2.2.2.2.1.trans h1.2.2.2.2.2.2.2.2.1⟩
  · exact ⟨rfl, rfl, rfl, rfl, rfl, rfl, rfl, rfl⟩

lemma integrateP1_held (r : RandDraw) (s : State) (h : s.mouse.targetPoint = some 1) :
    integrateP1 r s = { s with vel0 := { x := 0, y := 0 } } := by
  unfold integrateP1
  rw [if_pos h]

lemma integrateP2_held (r : RandDraw) (s : State) (h : s.mouse.targetPoint = some 2) :
    integrateP2 r s = { s with vel1 := { x := 0, y := 0 } } := by
  unfold integrateP2
  rw [if_pos h]

/-- C2: with physics enabled, the tick forces the velocity of the point
under manual control to exactly `{x:0, y:0}` — whatever it was before —
and leaves that point's position untouched (the spring-force computation
is skipped for it). -/
theorem updatePhysics_manual_control (s : State) (r1 r2 : RandDraw)
    (hen : s.physics.enabled = true) :
    (s.mouse.targetPoint = some 1 →
      (updatePhysics r1 r2 s).vel0 = { x := 0, y := 0 }
      ∧ (updatePhysics r1 r2 s).controlPoints.p1 = s.controlPoints.p1)
    ∧ (s.mouse.targetPoint = some 2 →
      (updatePhysics r1 r2 s).vel1 = { x := 0, y := 0 }
      ∧ (updatePhysics r1 r2 s).controlPoints.p2 = s.controlPoints.p2) := by
  unfold updatePhysics
  rw [if_pos hen]
  constructor
  · intro ht
    rw [integrateP1_held r1 s ht]
    have h2 := integrateP2_frame r2 { s with vel0 := { x := 0, y := 0 } }
    exact ⟨h2.2.2.2.2.2.2.2.2.2, h2.2.2.2.2.2.2.2.1⟩
  · intro ht
    have hm := (integrateP1_frame r1 s).2.2.2.2.1
    have ht1 : (integrateP1 r1 s).mouse.targetPoint = some 2 := by rw [hm]; exact ht
    rw [integrateP2_held r2 (integrateP1 r1 s) ht1]
    exact ⟨rfl, (integrateP1_frame r1 s).2.2.2.2.2.2.2.1⟩

/-- The draws of one `RandDraw` block, all zero. -/
def zeroDraw : RandDraw := ⟨0, 0, 0, 0, 0, 0, 0, 0⟩

/-- A concrete post-initialization state on an 800 × 600 surface with P1
held by the pointer and a nonzero velocity on P1. -/
def heldState : State :=
  { width := 800
    height := 600
    initialPoints := restPose 800 600
    controlPoints := restPose 800 600
    physics := { enabled := true, stiffness := 0.05, damping := 0.90, mouseInfluence := 0.5 }
    vel0 := { x := 3, y := -2 }
    vel1 := { x := 1, y := 1 }
    mouse := { x := 280, y := 120, px := 0, py := 0, vx := 4, vy := 4, isDown := true,
               targetPoint := some 1 }
    particlesEnabled := true
    particles := [] }

/-- Witness for C2: at `heldState`, one tick zeroes P1's velocity (it was
`(3, -2)`) and leaves P1 where it is. -/
theorem updatePhysics_manual_control_witness :
    (updatePhysics zeroDraw zeroDraw heldState).vel0 = { x := 0, y := 0 }
    ∧ (updatePhysics zeroDraw zeroDraw heldState).controlPoints.p1 =
        heldState.controlPoints.p1 := by
  exact (updatePhysics_manual_control heldState zeroDraw zeroDraw rfl).1 rfl

/-- C10: one physics tick never changes the fixed endpoints P0 and P3 (it
mutates only P1, P2, their velocities and the particle collection, leaving
dimensions, rest pose, parameters, pointer state and the particles-enabled
flag untouched), and point selection only ever yields P1, P2 or nothing,
so manual control can never select an endpoint. -/
theorem updatePhysics_endpoints_fixed (s : State) (r1 r2 : RandDraw) (x y : ℚ) :
    (updatePhysics r1 r2 s).controlPoints.p0 = s.controlPoints.p0
    ∧ (updatePhysics r1 r2 s).controlPoints.p3 = s.controlPoints.p3
    ∧ (updatePhysics r1 r2 s).width = s.width
    ∧ (updatePhysics r1 r2 s).height = s.height
    ∧ (updatePhysics r1 r2 s).initialPoints = s.initialPoints
    ∧ (updatePhysics r1 r2 s).physics = s.physics
    ∧ (updatePhysics r1 r2 s).mouse = s.mouse
    ∧ (updatePhysics r1 r2 s).particlesEnabled = s.particlesEnabled
    ∧ (getNearestControlPoint s.controlPoints x y 30 = none
        ∨ getNearestControlPoint s.controlPoints x y 30 = some 1
        ∨ getNearestControlPoint s.controlPoints x y 30 = some 2) := by
  have h := updatePhysics_frame r1 r2 s
  refine ⟨h.2.2.2.2.2.2.1, h.2.2.2.2.2.2.2, h.1, h.2.1, h.2.2.1, h.2.2.2.1,
    h.2.2.2.2.1, h.2.2.2.2.2.1, ?_⟩
  unfold getNearestControlPoint
  split_ifs
  · exact Or.inr (Or.inl rfl)
  · exact Or.inr (Or.inr rfl)
  · exact Or.inl rfl

lemma integrateP1_steady (r : RandDraw) (s : State)
    (hmx : s.mouse.x = s.width / 2) (hmy : s.mouse.y = s.height / 2)
    (hvx : s.mouse.vx = 0) (hvy : s.mouse.vy = 0)
    (hp : s.controlPoints.p1 = s.initialPoints.p1) (hv : s.vel0 = { x := 0, y := 0 })
    (hx1 : 30 ≤ s.initialPoints.p1.x) (hx2 : s.initialPoints.p1.x ≤ s.width - 30)
    (hy1 : 30 ≤ s.initialPoints.p1.y) (hy2 : s.initialPoints.p1.y ≤ s.height - 30) :
    (integrateP1 r s).controlPoints.p1 = s.initialPoints.p1
    ∧ (integrateP1 r s).vel0 = { x := 0, y := 0 } := by
  by_cases ht : s.mouse.targetPoint = some 1
  · rw [integrateP1_held r s ht]
    exact ⟨hp, rfl⟩
  · have h1 := clampAxis_inside s.width s.initialPoints.p1.x 0 hx1 hx2
    have h2 := clampAxis_inside s.height s.initialPoints.p1.y 0 hy1 hy2
    constructor <;>
      simp [integrateP1, if_neg ht, hv, hp, hmx, hmy, hvx, hvy, applyBoundaries, h1, h2]

lemma integrateP2_steady (r : RandDraw) (s : State)
    (hmx : s.mouse.x = s.width / 2) (hmy : s.mouse.y = s.height / 2)
    (hvx : s.mouse.vx = 0) (hvy : s.mouse.vy = 0)
    (hp : s.controlPoints.p2 = s.initialPoints.p2) (hv : s.vel1 = { x := 0, y := 0 })
    (hx1 : 30 ≤ s.initialPoints.p2.x) (hx2 : s.initialPoints.p2.x ≤ s.width - 30)
    (hy1 : 30 ≤ s.initialPoints.p2.y) (hy2 : s.initialPoints.p2.y ≤ s.height - 30) :
    (integrateP2 r s).controlPoints.p2 = s.initialPoints.p2
    ∧ (integrateP2 r s).vel1 = { x := 0, y := 0 } := by
  by_cases ht : s.mouse.targetPoint = some 2
  · rw [integrateP2_held r s ht]
    exact ⟨hp, rfl⟩
  · have h1 := clampAxis_inside s.width s.initialPoints.p2.x 0 hx1 hx2
    have h2 := clampAxis_inside s.height s.initialPoints.p2.y 0 hy1 hy2
    constructor <;>
      simp [integrateP2, if_neg ht, hv, hp, hmx, hmy, hvx, hvy, applyBoundaries, h1, h2]

lemma updatePhysics_steady_p1 (r1 r2 : RandDraw) (s : State)
    (hmx : s.mouse.x = s.width / 2) (hmy : s.mouse.y = s.height / 2)
    (hvx : s.mouse.vx = 0) (hvy : s.mouse.vy = 0)
    (hp : s.controlPoints.p1 = s.initialPoints.p1) (hv : s.vel0 = { x := 0, y := 0 })
    (hx1 : 30 ≤ s.initialPoints.p1.x) (hx2 : s.initialPoints.p1.x ≤ s.width - 30)
    (hy1 : 30 ≤ s.initialPoints.p1.y) (hy2 : s.initialPoints.p1.y ≤ s.height - 30) :
    (updatePhysics r1 r2 s).controlPoints.p1 = s.initialPoints.p1
    ∧ (updatePhysics r1 r2 s).vel0 = { x := 0, y := 0 } := by
  unfold updatePhysics
  split
  · have hi := integrateP1_steady r1 s hmx hmy hvx hvy hp hv hx1 hx2 hy1 hy2
    have h2 := integrateP2_frame r2 (integrateP1 r1 s)
    exact ⟨h2.2.2.2.2.2.2.2.1.trans hi.1, h2.2.2.2.2.2.2.2.2.2.trans hi.2⟩
  · exact ⟨hp, hv⟩

lemma updatePhysics_steady_p2 (r1 r2 : RandDraw) (s : State)
    (hmx : s.mouse.x = s.width / 2) (hmy : s.mouse.y = s.height / 2)
    (hvx : s.mouse.vx = 0) (hvy : s.mouse.vy = 0)
    (hp : s.controlPoints.p2 = s.initialPoints.p2) (hv : s.vel1 = { x := 0, y := 0 })
    (hx1 : 30 ≤ s.initialPoints.p2.x) (hx2 : s.initialPoints.p2.x ≤ s.width - 30)
    (hy1 : 30 ≤ s.initialPoints.p2.y) (hy2 : s.initialPoints.p2.y ≤ s.height - 30) :
    (updatePhysics r1 r2 s).controlPoints.p2 = s.initialPoints.p2
    ∧ (updatePhysics r1 r2 s).vel1 = { x := 0, y := 0 } := by
  unfold updatePhysics
  split
  · have hf1 := integrateP1_frame r1 s
    have hi := integrateP2_steady r2 (integrateP1 r1 s)
      (by rw [hf1.2.2.2.2.1, hf1.1]; exact hmx) (by rw [hf1.2.2.2.2.1, hf1.2.1]; exact hmy)
      (by rw [hf1.2.2.2.2.1]; exact hvx) (by rw [hf1.2.2.2.2.1]; exact hvy)
      (by rw [hf1.2.2.2.2.2.2.2.1, hf1.2.2.1]; exact hp) (by rw [hf1.2.2.2.2.2.2.2.2.2]; exact hv)
      (by rw [hf1.2.2.1]; exact hx1) (by rw [hf1.2.2.1, hf1.1]; exact hx2)
      (by rw [hf1.2.2.1]; exact hy1) (by rw [hf1.2.2.1, hf1.2.1]; exact hy2)
    exact ⟨hi.1.trans (congrArg CtrlPts.p2 hf1.2.2.1), hi.2⟩
  · exact ⟨hp, hv⟩

lemma iteratePhysics_frame (f : ℕ → RandDraw × RandDraw) (n : ℕ) (s : State) :
    (iteratePhysics f n s).width = s.width ∧ (iteratePhysics f n s).height = s.height
    ∧ (iteratePhysics f n s).initialPoints = s.initialPoints
    ∧ (iteratePhysics f n s).physics = s.physics
    ∧ (iteratePhysics f n s).mouse = s.mouse := by
  induction n with
  | zero => exact ⟨rfl, rfl, rfl, rfl, rfl⟩
  | succ n ih =>
    have h := updatePhysics_frame (f n).1 (f n).2 (iteratePhysics f n s)
    exact ⟨h.1.trans ih.1, h.2.1.trans ih.2.1, h.2.2.1.trans ih.2.2.1,
      h.2.2.2.1.trans ih.2.2.2.1, h.2.2.2.2.1.trans ih.2.2.2.2⟩

/-- C5: with the standard parameters, a movable point sitting exactly at
its rest-pose position with zero velocity, the pointer at the canvas
center with zero derived pointer velocity, and the rest-pose position
inside the 30-unit margins, stays at exactly that position with zero
velocity after any number of physics ticks: the target equals the current
position, so the spring force is zero.  The first conjunct covers P1, the
second P2. -/
theorem updatePhysics_rest_pose_stationary (s : State) (f : ℕ → RandDraw × RandDraw)
    (hst : s.physics.stiffness = 0.05) (hdp : s.physics.damping = 0.90)
    (hin : s.physics.mouseInfluence = 0.5)
    (hmx : s.mouse.x = s.width / 2) (hmy : s.mouse.y = s.height / 2)
    (hvx : s.mouse.vx = 0) (hvy : s.mouse.vy = 0) :
    (s.controlPoints.p1 = s.initialPoints.p1 → s.vel0 = { x := 0, y := 0 } →
      30 ≤ s.initialPoints.p1.x → s.initialPoints.p1.x ≤ s.width - 30 →
      30 ≤ s.initialPoints.p1.y → s.initialPoints.p1.y ≤ s.height - 30 →
      ∀ n, (iteratePhysics f n s).controlPoints.p1 = s.initialPoints.p1
        ∧ (iteratePhysics f n s).vel0 = { x := 0, y := 0 })
    ∧ (s.controlPoints.p2 = s.initialPoints.p2 → s.vel1 = { x := 0, y := 0 } →
      30 ≤ s.initialPoints.p2.x → s.initialPoints.p2.x ≤ s.width - 30 →
      30 ≤ s.initialPoints.p2.y → s.initialPoints.p2.y ≤ s.height - 30 →
      ∀ n, (iteratePhysics f n s).controlPoints.p2 = s.initialPoints.p2
        ∧ (iteratePhysics f n s).vel1 = { x := 0, y := 0 }) := by
  constructor
  · intro hp hv hx1 hx2 hy1 hy2 n
    induction n with
    | zero => exact ⟨hp, hv⟩
    | succ n ih =>
      have hfr := iteratePhysics_frame f n s
      have h := updatePhysics_steady_p1 (f n).1 (f n).2 (iteratePhysics f n s)
        (by rw [hfr.2.2.2.2, hfr.1]; exact hmx) (by rw [hfr.2.2.2.2, hfr.2.1]; exact hmy)
        (by rw [hfr.2.2.2.2]; exact hvx) (by rw [hfr.2.2.2.2]; exact hvy)
        (by rw [hfr.2.2.1]; exact ih.1) ih.2
        (by rw [hfr.2.2.1]; exact hx1) (by rw [hfr.2.2.1, hfr.1]; exact hx2)
        (by rw [hfr.2.2.1]; exact hy1) (by rw [hfr.2.2.1, hfr.2.1]; exact hy2)
      exact ⟨h.1.trans (congrArg CtrlPts.p1 hfr.2.2.1), h.2⟩
  · intro hp hv hx1 hx2 hy1 hy2 n
    induction n with
    | zero => exact ⟨hp, hv⟩
    | succ n ih =>
      have hfr := iteratePhysics_frame f n s
      have h := updatePhysics_steady_p2 (f n).1 (f n).2 (iteratePhysics f n s)
        (by rw [hfr.2.2.2.2, hfr.1]; exact hmx) (by rw [hfr.2.2.2.2, hfr.2.1]; exact hmy)
        (by rw [hfr.2.2.2.2]; exact hvx) (by rw [hfr.2.2.2.2]; exact hvy)
        (by rw [hfr.2.2.1]; exact ih.1) ih.2
        (by rw [hfr.2.2.1]; exact hx1) (by rw [hfr.2.2.1, hfr.1]; exact hx2)
        (by rw [hfr.2.2.1]; exact hy1) (by rw [hfr.2.2.1, hfr.2.1]; exact hy2)
      exact ⟨h.1.trans (congrArg CtrlPts.p2 hfr.2.2.1), h.2⟩

/-- A concrete steady state on an 800 × 600 surface: both movable points at
rest pose, zero velocities, pointer at the canvas center with zero derived
velocity, nothing held. -/
def steadyState : State :=
  { width := 800
    height := 600
    initialPoints := restPose 800 600
    controlPoints := restPose 800 600
    physics := { enabled := true, stiffness := 0.05, damping := 0.90, mouseInfluence := 0.5 }
    vel0 := { x := 0, y := 0 }
    vel1 := { x := 0, y := 0 }
    mouse := { x := 400, y := 300, px := 0, py := 0, vx := 0, vy := 0, isDown := false,
               targetPoint := none }
    particlesEnabled := true
    particles := [] }

/-- Witness for C5: at `steadyState`, P1 is still exactly at its rest-pose
position with zero velocity after 5 ticks. -/
theorem updatePhysics_rest_pose_stationary_witness :
    (iteratePhysics (fun _ => (zeroDraw, zeroDraw)) 5 steadyState).controlPoints.p1 =
      steadyState.initialPoints.p1
    ∧ (iteratePhysics (fun _ => (zeroDraw, zeroDraw)) 5 steadyState).vel0 =
      { x := 0, y := 0 } := by
  exact (updatePhysics_rest_pose_stationary steadyState (fun _ => (zeroDraw, zeroDraw))
    rfl rfl rfl (by norm_num [steadyState]) (by norm_num [steadyState])
    rfl rfl).1 rfl rfl
    (by norm_num [steadyState, restPose]) (by norm_num [steadyState, restPose])
    (by norm_num [steadyState, restPose]) (by norm_num [steadyState, restPose]) 5

/-- A concrete post-initialization state whose current control points have
drifted away from the rest pose, with the pointer up and nothing under
manual control. -/
def driftedState : State :=
  { width := 800
    height := 600
    initialPoints := restPose 800 600
    controlPoints := { restPose 800 600 with p1 := { x := 111, y := 222 } }
    physics := { enabled := true, stiffness := 0.05, damping := 0.90, mouseInfluence := 0.5 }
    vel0 := { x := 0, y := 0 }
    vel1 := { x := 0, y := 0 }
    mouse := { x := 400, y := 300, px := 0, py := 0, vx := 0, vy := 0, isDown := false,
               targetPoint := none }
    particlesEnabled := true
    particles := [] }

/-- The same state while the pointer is pressed on empty canvas: engaged
(`isDown`) but with no point under manual control. -/
def driftedStateDown : State :=
  { driftedState with
    mouse := { x := 400, y := 300, px := 0, py := 0, vx := 0, vy := 0, isDown := true,
               targetPoint := none } }

/-- Counterexample to C3: resizing `driftedState` (no point under manual
control, pointer up) does recompute the rest pose but leaves P1 at
(111, 222), not at the new rest-pose position; and resizing
`driftedStateDown` (still no point under manual control, but pointer
pressed) does not even recompute the rest pose. -/
theorem resizeCanvas_counterexample :
    driftedState.mouse.targetPoint = none
    ∧ driftedState.mouse.isDown = false
    ∧ (resizeCanvas 1000 driftedState).initialPoints = restPose 1000 600
    ∧ (resizeCanvas 1000 driftedState).controlPoints.p1 ≠ (restPose 1000 600).p1
    ∧ driftedStateDown.mouse.targetPoint = none
    ∧ (resizeCanvas 1000 driftedStateDown).initialPoints = driftedStateDown.initialPoints
    ∧ driftedStateDown.initialPoints ≠ restPose 1000 600 := by
  refine ⟨rfl, rfl, rfl, ?_, rfl, rfl, ?_⟩
  · intro h
    simp only [resizeCanvas, calculateInitialPoints, driftedState, restPose,
      Point.mk.injEq] at h
    norm_num at h
  · intro h
    simp only [driftedStateDown, driftedState, restPose, CtrlPts.mk.injEq,
      Point.mk.injEq] at h
    norm_num at h

/-- C3 (amended): when the surface is resized while the pointer is not
pressed, the rest pose is recomputed from the new dimensions but the
control points P1 and P2 keep their current positions (control points are
copied from the rest pose only at first initialization, when none exist
yet); when the pointer is pressed — whether or not a point is under manual
control — neither the rest pose nor the control points change. -/
theorem resizeCanvas_rest_pose (s : State) (w : ℚ) :
    (s.mouse.isDown = false →
      (resizeCanvas w s).width = w ∧ (resizeCanvas w s).height = 600
      ∧ (resizeCanvas w s).initialPoints = restPose w 600
      ∧ (resizeCanvas w s).controlPoints = s.controlPoints)
    ∧ (s.mouse.isDown = true →
      (resizeCanvas w s).width = w ∧ (resizeCanvas w s).height = 600
      ∧ (resizeCanvas w s).initialPoints = s.initialPoints
      ∧ (resizeCanvas w s).controlPoints = s.controlPoints) := by
  unfold resizeCanvas calculateInitialPoints
  constructor <;> intro h <;> simp [h]

/-- Witness for C3 (amended): resizing `driftedState` to width 1000. -/
theorem resizeCanvas_rest_pose_witness :
    (resizeCanvas 1000 driftedState).width = 1000
    ∧ (resizeCanvas 1000 driftedState).height = 600
    ∧ (resizeCanvas 1000 driftedState).initialPoints = restPose 1000 600
    ∧ (resizeCanvas 1000 driftedState).controlPoints = driftedState.controlPoints := by
  exact (resizeCanvas_rest_pose driftedState 1000).1 rfl
